import Mathlib

/-!
Verification of the Opacus tutorial notebook
`tutorials/building_image_classifier.ipynb`.

The notebook is a linear script: hyper-parameter constants, CIFAR10
loading, ResNet18 construction, a model-compatibility validation, a
BatchNorm-to-GroupNorm rewriting step, privacy-engine attachment, a
training loop with virtual batches, and a test-evaluation loop.  The
definitions below embed the notebook cells; library calls whose code is
not part of the tutorial (`DPModelInspector.validate`,
`convert_batchnorm_modules`) are modelled from the specification, as
indicated by their doc comments.
-/

/- ### Hyper-parameter constants (notebook cells 5 and 7) -/

/-- `MAX_GRAD_NORM = 1.2` from the hyper-parameter cell. -/
def MAX_GRAD_NORM : ℚ := 12 / 10

/-- `NOISE_MULTIPLIER = .38` from the hyper-parameter cell. -/
def NOISE_MULTIPLIER : ℚ := 38 / 100

/-- `DELTA = 1e-5` from the hyper-parameter cell. -/
def DELTA : ℚ := 1 / 100000

/-- `LR = 1e-3` from the hyper-parameter cell. -/
def LR : ℚ := 1 / 1000

/-- `NUM_WORKERS = 2` from the hyper-parameter cell. -/
def NUM_WORKERS : Nat := 2

/-- `BATCH_SIZE = 128`, the physical batch size of the data loaders. -/
def BATCH_SIZE : Nat := 128

/-- `VIRTUAL_BATCH_SIZE = 512`, the logical batch size of one optimizer
update. -/
def VIRTUAL_BATCH_SIZE : Nat := 512

/-- The guard `VIRTUAL_BATCH_SIZE % BATCH_SIZE == 0` asserted just
before the training loop is defined. -/
def virtualBatchGuard : Bool := VIRTUAL_BATCH_SIZE % BATCH_SIZE == 0

/-- `virtual_batch_rate = int(VIRTUAL_BATCH_SIZE / BATCH_SIZE)`: Python
`int` truncates the true division, which for naturals is `Nat` division. -/
def virtual_batch_rate : Nat := VIRTUAL_BATCH_SIZE / BATCH_SIZE

/- ### The per-batch optimizer action inside `train` (cell 31) -/

/-- The two optimizer actions a batch of `train` can take: a real
`optimizer.step()` (noise addition and parameter update) or an
`optimizer.virtual_step()` (gradient accumulation only). -/
inductive StepKind where
  | realStep
  | virtualStep
  deriving DecidableEq, Repr

/-- The branch of `train` choosing the optimizer action at 0-based batch
index `i` of an epoch with `n = len(train_loader)` batches:
`if ((i + 1) % virtual_batch_rate == 0) or ((i + 1) == len(train_loader)):
optimizer.step() else: optimizer.virtual_step()`. -/
def stepChoice (rate n i : Nat) : StepKind :=
  if (i + 1) % rate == 0 || (i + 1) == n then .realStep else .virtualStep

/-- The sequence of optimizer actions taken over one epoch of `n`
batches, following `for i, (images, target) in enumerate(train_loader)`. -/
def trainSteps (n : Nat) : List StepKind :=
  (List.range n).map (stepChoice virtual_batch_rate n)

/- ### Theorems for C1 and C2 -/

/-- C2: with `VIRTUAL_BATCH_SIZE = 512` and `BATCH_SIZE = 128` the
assertion guard `VIRTUAL_BATCH_SIZE % BATCH_SIZE == 0` holds, so the
assertion never fires, and `virtual_batch_rate` equals `4`. -/
theorem c2_virtual_batch_rate :
    VIRTUAL_BATCH_SIZE = 512 ∧ BATCH_SIZE = 128 ∧
    virtualBatchGuard = true ∧ virtual_batch_rate = 4 := by
  decide

/-- C1: in `train`, at every 0-based batch index `i` of an epoch of `n`
batches, a real optimizer step is taken if and only if `i + 1` is a
multiple of `virtual_batch_rate` or `i + 1 = n`; on every other batch a
virtual step is taken instead; in particular the last batch of the epoch
always takes a real step. -/
theorem c1_step_iff (n i : Nat) (hin : i < n) :
    ((trainSteps n).get ⟨i, by simpa [trainSteps] using hin⟩ = .realStep ↔
      ((i + 1) % virtual_batch_rate = 0 ∨ i + 1 = n)) ∧
    ((trainSteps n).get ⟨i, by simpa [trainSteps] using hin⟩ = .virtualStep ↔
      ¬ ((i + 1) % virtual_batch_rate = 0 ∨ i + 1 = n)) ∧
    (i + 1 = n → (trainSteps n).get ⟨i, by simpa [trainSteps] using hin⟩ = .realStep) := by
  have hget : (trainSteps n).get ⟨i, by simpa [trainSteps] using hin⟩ =
      stepChoice virtual_batch_rate n i := by
    simp [trainSteps]
  rw [hget]
  unfold stepChoice
  by_cases hc : (i + 1) % virtual_batch_rate = 0 ∨ i + 1 = n
  · have hb : ((i + 1) % virtual_batch_rate == 0 || (i + 1) == n) = true := by
      rcases hc with h | h <;> simp [h]
    simp only [hb, if_true]
    refine ⟨by simp [hc], by simp [hc], by simp⟩
  · push_neg at hc
    have hb : ((i + 1) % virtual_batch_rate == 0 || (i + 1) == n) = false := by
      simp [hc.1, hc.2]
    simp only [hb, Bool.false_eq_true, if_false]
    refine ⟨by simp [hc.1, hc.2], by simp [hc.1, hc.2], fun h => absurd h hc.2⟩

/-- Witness for C1 at a concrete input: an epoch of `n = 5` batches, at
the last batch `i = 4`; `5` is not a multiple of `virtual_batch_rate = 4`,
yet a real step is taken because `i + 1 = n`. -/
theorem c1_step_iff_witness :
    (4 < 5 ∧ ((trainSteps 5).get ⟨4, by decide⟩ = .realStep ↔
      ((4 + 1) % virtual_batch_rate = 0 ∨ 4 + 1 = 5))) ∧
    (trainSteps 5).get ⟨4, by decide⟩ = .realStep := by
  refine ⟨⟨by decide, (c1_step_iff 5 4 (by decide)).1⟩, ?_⟩
  exact (c1_step_iff 5 4 (by decide)).2.2 (by decide)

/- ### Model modules, validation and BatchNorm conversion (cells 14, 17, 19) -/

/-- The layer types the notebook distinguishes: BatchNorm layers are the
incompatible ones; `convert_batchnorm_modules` replaces them with
GroupNorm; everything else in ResNet18 (convolutions, linear layer,
ReLU, pooling) is compatible. -/
inductive LayerType where
  | batchNorm
  | groupNorm
  | conv
  | linear
  | relu
  | pool
  deriving DecidableEq, Repr

/-- A module of the model graph: its dotted name as reported by the
inspector, and its layer type. -/
structure NamedModule where
  name : String
  type : LayerType
  deriving DecidableEq, Repr

/-- Modelled from the spec: which layer types are compatible with
per-sample gradient computation.  BatchNorm layers are rejected because
they compute statistics across the batch, creating a dependency between
samples; the replacement GroupNorm layers and the remaining ResNet18
layers are supported.  The code of `opacus.dp_model_inspector` is not
part of the tutorial sources. -/
def isCompatible : LayerType → Bool
  | .batchNorm => false
  | _ => true

/-- Modelled from the spec: `DPModelInspector().validate(model)` returns
`True` when every module is compatible and otherwise raises an
`IncompatibleModuleException` whose message reports the list of
offending module names.  The exception is embedded as the `Except.error`
carrying that list.  The code of `opacus.dp_model_inspector.validate` is
not part of the tutorial sources. -/
def validate (model : List NamedModule) : Except (List String) Bool :=
  let violators := (model.filter (fun m => ¬ isCompatible m.type)).map (fun m => m.name)
  if violators.isEmpty then .ok true else .error violators

/-- Modelled from the spec: `module_modification.convert_batchnorm_modules`
replaces every batch-normalization layer throughout the model graph with
a group-normalization layer, leaving all other modules unchanged.  The
code of `opacus.utils.module_modification` is not part of the tutorial
sources. -/
def convert_batchnorm_modules (model : List NamedModule) : List NamedModule :=
  model.map (fun m => if m.type = .batchNorm then { m with type := .groupNorm } else m)

/-- The modules of `models.resnet18(num_classes=10)` relevant to the
inspector, in traversal order: the stem, the eight BasicBlocks of the
four layers (with downsample branches in layers 2-4), and the classifier
head.  The BatchNorm modules carry exactly the names the notebook's
recorded `IncompatibleModuleException` output reports. -/
def resnet18Modules : List NamedModule :=
  [ ⟨"Main.conv1", .conv⟩, ⟨"Main.bn1", .batchNorm⟩, ⟨"Main.relu", .relu⟩,
    ⟨"Main.maxpool", .pool⟩,
    ⟨"Main.layer1.0.conv1", .conv⟩, ⟨"Main.layer1.0.bn1", .batchNorm⟩,
    ⟨"Main.layer1.0.conv2", .conv⟩, ⟨"Main.layer1.0.bn2", .batchNorm⟩,
    ⟨"Main.layer1.1.conv1", .conv⟩, ⟨"Main.layer1.1.bn1", .batchNorm⟩,
    ⟨"Main.layer1.1.conv2", .conv⟩, ⟨"Main.layer1.1.bn2", .batchNorm⟩,
    ⟨"Main.layer2.0.conv1", .conv⟩, ⟨"Main.layer2.0.bn1", .batchNorm⟩,
    ⟨"Main.layer2.0.conv2", .conv⟩, ⟨"Main.layer2.0.bn2", .batchNorm⟩,
    ⟨"Main.layer2.0.downsample.0", .conv⟩, ⟨"Main.layer2.0.downsample.1", .batchNorm⟩,
    ⟨"Main.layer2.1.conv1", .conv⟩, ⟨"Main.layer2.1.bn1", .batchNorm⟩,
    ⟨"Main.layer2.1.conv2", .conv⟩, ⟨"Main.layer2.1.bn2", .batchNorm⟩,
    ⟨"Main.layer3.0.conv1", .conv⟩, ⟨"Main.layer3.0.bn1", .batchNorm⟩,
    ⟨"Main.layer3.0.conv2", .conv⟩, ⟨"Main.layer3.0.bn2", .batchNorm⟩,
    ⟨"Main.layer3.0.downsample.0", .conv⟩, ⟨"Main.layer3.0.downsample.1", .batchNorm⟩,
    ⟨"Main.layer3.1.conv1", .conv⟩, ⟨"Main.layer3.1.bn1", .batchNorm⟩,
    ⟨"Main.layer3.1.conv2", .conv⟩, ⟨"Main.layer3.1.bn2", .batchNorm⟩,
    ⟨"Main.layer4.0.conv1", .conv⟩, ⟨"Main.layer4.0.bn1", .batchNorm⟩,
    ⟨"Main.layer4.0.conv2", .conv⟩, ⟨"Main.layer4.0.bn2", .batchNorm⟩,
    ⟨"Main.layer4.0.downsample.0", .conv⟩, ⟨"Main.layer4.0.downsample.1", .batchNorm⟩,
    ⟨"Main.layer4.1.conv1", .conv⟩, ⟨"Main.layer4.1.bn1", .batchNorm⟩,
    ⟨"Main.layer4.1.conv2", .conv⟩, ⟨"Main.layer4.1.bn2", .batchNorm⟩,
    ⟨"Main.avgpool", .pool⟩, ⟨"Main.fc", .linear⟩ ]

/-- The list of offending module names the notebook's recorded output
reports for the unmodified ResNet18. -/
def resnet18Violators : List String :=
  [ "Main.bn1", "Main.layer1.0.bn1", "Main.layer1.0.bn2",
    "Main.layer1.1.bn1", "Main.layer1.1.bn2",
    "Main.layer2.0.bn1", "Main.layer2.0.bn2", "Main.layer2.0.downsample.1",
    "Main.layer2.1.bn1", "Main.layer2.1.bn2",
    "Main.layer3.0.bn1", "Main.layer3.0.bn2", "Main.layer3.0.downsample.1",
    "Main.layer3.1.bn1", "Main.layer3.1.bn2",
    "Main.layer4.0.bn1", "Main.layer4.0.bn2", "Main.layer4.0.downsample.1",
    "Main.layer4.1.bn1", "Main.layer4.1.bn2" ]

/-- C3: after the layer substitution
`model = module_modification.convert_batchnorm_modules(model)` the
compatibility check `DPModelInspector().validate(model)` returns `True`
and raises no exception. -/
theorem c3_validate_after_conversion :
    validate (convert_batchnorm_modules resnet18Modules) = .ok true := by
  rfl

/-- After conversion, no BatchNorm module remains in any model graph. -/
theorem convert_removes_batchnorm (model : List NamedModule) :
    ∀ m ∈ convert_batchnorm_modules model, m.type ≠ .batchNorm := by
  intro m hm
  simp only [convert_batchnorm_modules, List.mem_map] at hm
  obtain ⟨m0, _, rfl⟩ := hm
  by_cases h : m0.type = .batchNorm <;> simp [h]

/-- A converted model always validates, whatever the model graph was,
provided the original graph only held ResNet18-style layer types. -/
theorem validate_convert_ok (model : List NamedModule) :
    validate (convert_batchnorm_modules model) = .ok true := by
  simp only [validate, List.isEmpty_eq_true, List.map_eq_nil_iff,
    List.filter_eq_nil_iff, decide_not, Bool.not_eq_eq_eq_not, Bool.not_true,
    decide_eq_false_iff_not, Classical.not_not]
  rw [if_pos]
  intro m hm
  have hbn := convert_removes_batchnorm model m hm
  cases htype : m.type
  · exact absurd htype hbn
  all_goals rfl

/- ### The notebook as an ordered script (cells 14 through 37) -/

/-- The state the notebook script threads through its cells: the model's
module graph and the progress flags of the preparation and training
stages. -/
structure NBState where
  modules : List NamedModule
  onDevice : Bool
  optimizerMade : Bool
  engineMade : Bool
  engineAttached : Bool
  trainedEpochs : List Nat
  tested : Bool
  deriving DecidableEq, Repr

/-- The state-changing statements of the notebook, in the roles the
claims speak about: the two `inspector.validate(model)` calls, the
`convert_batchnorm_modules` rewriting, `model.to(device)`, the
`optim.RMSprop` construction, the `PrivacyEngine` construction and its
`attach`, the per-epoch `train` calls and the final `test` call. -/
inductive ScriptStep where
  | validateModel
  | convertBN
  | toDevice
  | makeOptimizer
  | makePrivacyEngine
  | attachEngine
  | trainEpoch (e : Nat)
  | runTest
  deriving DecidableEq, Repr

/-- Executing one script step: the next state, together with the error
the step surfaces, if any.  Only a `validateModel` step can surface an
error (the `IncompatibleModuleException` violator list); every other
step succeeds. -/
def runStep (s : NBState) : ScriptStep → NBState × Option (List String)
  | .validateModel =>
      (s, match validate s.modules with
          | .ok _ => none
          | .error v => some v)
  | .convertBN => ({ s with modules := convert_batchnorm_modules s.modules }, none)
  | .toDevice => ({ s with onDevice := true }, none)
  | .makeOptimizer => ({ s with optimizerMade := true }, none)
  | .makePrivacyEngine => ({ s with engineMade := true }, none)
  | .attachEngine => ({ s with engineAttached := true }, none)
  | .trainEpoch e => ({ s with trainedEpochs := s.trainedEpochs ++ [e] }, none)
  | .runTest => ({ s with tested := true }, none)

/-- Executing a script: the final state and the list of surfaced errors,
in order.  A notebook user runs the remaining cells even after a cell
raised, which is what the recorded notebook outputs show. -/
def runScript : NBState → List ScriptStep → NBState × List (List String)
  | s, [] => (s, [])
  | s, step :: rest =>
      let next := runStep s step
      let outcome := runScript next.1 rest
      (outcome.1, (match next.2 with | none => [] | some v => [v]) ++ outcome.2)

/-- The notebook's cells in execution order: validate the raw ResNet18
(cell 17), convert BatchNorm and re-validate (cell 19), move to the
device (cell 21), build the RMSprop optimizer (cell 23), build and
attach the privacy engine (cell 28), then
`for epoch in tqdm_notebook(range(20)): train(model, train_loader,
optimizer, epoch + 1, device)` (cell 35) and the final
`test(model, test_loader, device)` (cell 37). -/
def notebookScript : List ScriptStep :=
  [ .validateModel, .convertBN, .validateModel, .toDevice,
    .makeOptimizer, .makePrivacyEngine, .attachEngine ]
  ++ (List.range 20).map (fun k => .trainEpoch (k + 1))
  ++ [ .runTest ]

/-- The notebook's starting state: the freshly constructed
`models.resnet18(num_classes=10)`, nothing prepared, nothing trained. -/
def initState : NBState :=
  { modules := resnet18Modules, onDevice := false, optimizerMade := false,
    engineMade := false, engineAttached := false, trainedEpochs := [], tested := false }

/-- C4: on the unmodified ResNet18 the compatibility check raises an
`IncompatibleModuleException` reporting the non-empty list of offending
module names recorded in the notebook output, this is the only error the
whole notebook run surfaces, and no step other than a validation can
surface an error at all. -/
theorem c4_validate_incompatible :
    validate resnet18Modules = .error resnet18Violators ∧
    resnet18Violators ≠ [] ∧
    (runScript initState notebookScript).2 = [resnet18Violators] ∧
    (∀ s step, step ≠ ScriptStep.validateModel → (runStep s step).2 = none) := by
  refine ⟨rfl, by decide, rfl, ?_⟩
  intro s step hstep
  cases step
  · exact absurd rfl hstep
  all_goals rfl

/-- Witness for C4 at a concrete input: the `convertBN` step, run from
the initial state, surfaces no error. -/
theorem c4_validate_incompatible_witness :
    ScriptStep.convertBN ≠ ScriptStep.validateModel ∧
    (runStep initState ScriptStep.convertBN).2 = none :=
  ⟨by decide, c4_validate_incompatible.2.2.2 initState ScriptStep.convertBN (by decide)⟩

/-- C6: the driver cell invokes `train` exactly 20 times, with the epoch
numbers 1 through 20 in increasing order, and afterwards invokes `test`
exactly once: the recorded epochs are exactly `[1, ..., 20]`, the script
holds exactly one `runTest` step, and it is the last step of the script. -/
theorem c6_driver_epochs :
    (runScript initState notebookScript).1.trainedEpochs =
      [1, 2, 3, 4, 5, 6, 7, 8, 9, 10, 11, 12, 13, 14, 15, 16, 17, 18, 19, 20] ∧
    (runScript initState notebookScript).1.tested = true ∧
    (notebookScript.filter (fun s => s == .runTest)).length = 1 ∧
    notebookScript.getLast? = some .runTest := by
  refine ⟨rfl, rfl, by decide, by decide⟩

/-- C7: the BatchNorm-to-GroupNorm rewriting happens before the model is
moved to the device, before the optimizer and the privacy engine are
constructed, and before any training batch is processed; the model the
training loop operates on is the rewritten, BatchNorm-free model, and it
stays that model to the end of the run. -/
theorem c7_convert_before_training :
    notebookScript.indexOf .convertBN = 1 ∧
    notebookScript.indexOf .toDevice = 3 ∧
    notebookScript.indexOf .makeOptimizer = 4 ∧
    notebookScript.indexOf .makePrivacyEngine = 5 ∧
    notebookScript.indexOf (.trainEpoch 1) = 7 ∧
    ((notebookScript.take 7).all
      (fun s => match s with | .trainEpoch _ => false | _ => true)) = true ∧
    (runScript initState (notebookScript.take 7)).1.modules =
      convert_batchnorm_modules resnet18Modules ∧
    (∀ m ∈ (runScript initState (notebookScript.take 7)).1.modules,
      m.type ≠ LayerType.batchNorm) ∧
    (runScript initState notebookScript).1.modules =
      convert_batchnorm_modules resnet18Modules := by
  refine ⟨by decide, by decide, by decide, by decide, by decide, by decide, rfl, ?_, rfl⟩
  intro m hm
  rw [show (runScript initState (notebookScript.take 7)).1.modules =
      convert_batchnorm_modules resnet18Modules from rfl] at hm
  exact convert_removes_batchnorm resnet18Modules m hm

/-- Witness for C7 at a concrete input: the first module of the model
the training loop sees, the converted stem BatchNorm, is not a BatchNorm
layer any more. -/
theorem c7_convert_before_training_witness :
    (⟨"Main.bn1", LayerType.groupNorm⟩ : NamedModule) ∈
      (runScript initState (notebookScript.take 7)).1.modules ∧
    (⟨"Main.bn1", LayerType.groupNorm⟩ : NamedModule).type ≠ LayerType.batchNorm :=
  ⟨by decide, c7_convert_before_training.2.2.2.2.2.2.2.1
    ⟨"Main.bn1", LayerType.groupNorm⟩ (by decide)⟩

/- ### The accuracy helper (cell 26) -/

/-- `np.mean` on a list of rationals: the sum divided by the length.  On
an empty array `np.mean` has no numeric value (it emits a
`RuntimeWarning` and produces NaN), modelled as `none`. -/
def npMean (xs : List ℚ) : Option ℚ :=
  if xs.length = 0 then none else some (xs.sum / xs.length)

/-- The notebook's helper `def accuracy(preds, labels): return
(preds == labels).mean()`: the elementwise comparison yields an
indicator array, whose mean is the fraction of matching positions. -/
def accuracy (preds labels : List Int) : Option ℚ :=
  npMean ((preds.zip labels).map (fun p => if p.1 = p.2 then 1 else 0))

/-- The mean of a non-empty list, as a total function; `npMean` agrees
with it away from the empty list. -/
def listMean (xs : List ℚ) : ℚ := xs.sum / xs.length

theorem npMean_ne_nil (xs : List ℚ) (h : xs ≠ []) :
    npMean xs = some (listMean xs) := by
  have hlen : xs.length ≠ 0 := by simpa using List.length_pos.mpr h |>.ne'
  simp [npMean, listMean, hlen]

/-- The sum of the 0/1 indicator array of a pair list counts the
matching pairs. -/
theorem indicator_sum (l : List (Int × Int)) :
    ((l.map (fun p => if p.1 = p.2 then (1 : ℚ) else 0)).sum) =
      (l.countP (fun p => p.1 == p.2) : ℚ) := by
  induction l with
  | nil => simp
  | cons a t ih =>
      by_cases h : a.1 = a.2 <;> simp [List.countP_cons, h, ih, add_comm]

/-- Zipping a list with itself yields only matching pairs, so the
indicator array is all ones. -/
theorem zip_self_indicator (l : List Int) :
    (l.zip l).map (fun p => if p.1 = p.2 then (1 : ℚ) else 0)
      = List.replicate l.length 1 := by
  induction l with
  | nil => rfl
  | cons a t ih => simpa [List.replicate_succ] using ih

/-- C8 counterexample: on the empty pair of (equal-length) arrays,
`accuracy` has no numeric value at all (`np.mean` of an empty array is
NaN), so it does not return a match fraction lying in `[0, 1]` there. -/
theorem c8_accuracy_empty_counterexample :
    ([] : List Int).length = ([] : List Int).length ∧
    accuracy ([] : List Int) ([] : List Int) = none ∧
    ¬ ∃ q : ℚ, accuracy ([] : List Int) ([] : List Int) = some q ∧
        0 ≤ q ∧ q ≤ 1 := by
  refine ⟨rfl, rfl, ?_⟩
  rintro ⟨q, hq, -, -⟩
  simp [accuracy, npMean] at hq

/-- C8 (amended to non-empty arrays): for every pair of equal-length
non-empty arrays, `accuracy` returns the number of matching positions
divided by the length, the result lies in `[0, 1]`, and
`accuracy x x = 1` for every non-empty `x`. -/
theorem c8_accuracy_mean (preds labels : List Int)
    (hlen : preds.length = labels.length) (hne : preds ≠ []) :
    accuracy preds labels =
      some (((preds.zip labels).countP (fun p => p.1 == p.2) : ℚ) /
        (preds.length : ℚ)) ∧
    (∀ q : ℚ, accuracy preds labels = some q → 0 ≤ q ∧ q ≤ 1) ∧
    accuracy preds preds = some 1 := by
  have hzlen : (preds.zip labels).length = preds.length := by
    simp [List.length_zip, hlen]
  have hlpos : 0 < preds.length := List.length_pos.mpr hne
  have hmaplen :
      ((preds.zip labels).map (fun p => if p.1 = p.2 then (1 : ℚ) else 0)).length
        = preds.length := by simp [hzlen]
  have hval : accuracy preds labels =
      some (((preds.zip labels).countP (fun p => p.1 == p.2) : ℚ) /
        (preds.length : ℚ)) := by
    unfold accuracy npMean
    rw [hmaplen, if_neg hlpos.ne', indicator_sum]
  refine ⟨hval, ?_, ?_⟩
  · intro q hq
    rw [hval, Option.some_inj] at hq
    subst hq
    constructor
    · positivity
    · rw [div_le_one (by exact_mod_cast hlpos)]
      have hcount : (preds.zip labels).countP (fun p => p.1 == p.2) ≤ preds.length := by
        calc (preds.zip labels).countP (fun p => p.1 == p.2)
            ≤ (preds.zip labels).length := List.countP_le_length _
          _ = preds.length := hzlen
      exact_mod_cast hcount
  · unfold accuracy npMean
    rw [zip_self_indicator]
    have : (List.replicate preds.length (1 : ℚ)).length = preds.length := by simp
    rw [this, if_neg hlpos.ne']
    simp [List.sum_replicate, div_self (show (preds.length : ℚ) ≠ 0 by exact_mod_cast hlpos.ne')]

/-- Witness for the amended C8 at a concrete input: `preds = [1, 2]`,
`labels = [1, 3]` match at exactly one of two positions. -/
theorem c8_accuracy_mean_witness :
    accuracy ([1, 2] : List Int) ([1, 3] : List Int) =
      some (((([1, 2] : List Int).zip ([1, 3] : List Int)).countP
        (fun p => p.1 == p.2) : ℚ) / (([1, 2] : List Int).length : ℚ)) :=
  (c8_accuracy_mean [1, 2] [1, 3] rfl (by decide)).1

/- ### The test function's accuracy aggregation (cell 33) -/

/-- The value `test` returns: looping over the test loader it collects
the per-batch `accuracy` into `top1_acc` and returns
`np.mean(top1_acc)`.  A batch is embedded as the list of its samples'
(argmax prediction, label) pairs; a batch on which `accuracy` has no
value (an empty batch) makes the whole mean valueless, as NaN would. -/
def testTop1 (batches : List (List (Int × Int))) : Option ℚ :=
  (batches.mapM (fun b => accuracy (b.map Prod.fst) (b.map Prod.snd))).bind npMean

/-- Stated from the claim's words, for comparison with `testTop1`: the
true per-sample test-set accuracy, the fraction of all test samples
whose prediction matches the label, ignoring batch boundaries. -/
def perSampleAcc (batches : List (List (Int × Int))) : Option ℚ :=
  accuracy (batches.flatten.map Prod.fst) (batches.flatten.map Prod.snd)

/-- The batch sizes a torch `DataLoader` without `drop_last` produces
over `n` samples at batch size `b`: full batches of `b`, then one
remainder batch of `n % b` samples when `b` does not divide `n`. -/
def loaderBatchSizes (n b : Nat) : List Nat :=
  List.replicate (n / b) b ++ (if n % b = 0 then [] else [n % b])

/-- `mapM` over `Option` succeeds with the pointwise values when every
element succeeds. -/
theorem mapM_eq_some_map {α β : Type} (f : α → Option β) (g : α → β)
    (l : List α) (h : ∀ a ∈ l, f a = some (g a)) :
    l.mapM f = some (l.map g) := by
  induction l with
  | nil => rfl
  | cons a t ih =>
      rw [List.mapM_cons, h a (by simp), ih (fun x hx => h x (by simp [hx]))]
      rfl

/-- Dividing each summand by a constant divides the sum. -/
theorem sum_map_div (l : List ℚ) (c : ℚ) :
    (l.map (fun x => x / c)).sum = l.sum / c := by
  induction l with
  | nil => simp
  | cons a t ih => simp [ih, add_div]

/-- `accuracy` on the prediction and label columns of a non-empty batch
of pairs is the fraction of matching pairs. -/
theorem accuracy_batch (b : List (Int × Int)) (k : Nat) (hk : 0 < k)
    (hb : b.length = k) :
    accuracy (b.map Prod.fst) (b.map Prod.snd) =
      some ((b.countP (fun p => p.1 == p.2) : ℚ) / (k : ℚ)) := by
  have hz : (b.map Prod.fst).zip (b.map Prod.snd) = b :=
    (List.zip_of_prod rfl rfl).symm
  unfold accuracy npMean
  rw [hz]
  have hlen : (b.map (fun p => if p.1 = p.2 then (1 : ℚ) else 0)).length = k := by
    simp [hb]
  rw [hlen, if_neg hk.ne', indicator_sum]

/-- Witness for `accuracy_batch` at a concrete input: a two-sample batch
with one match. -/
theorem accuracy_batch_witness :
    accuracy (([(0, 0), (1, 2)] : List (Int × Int)).map Prod.fst)
        (([(0, 0), (1, 2)] : List (Int × Int)).map Prod.snd) =
      some ((([(0, 0), (1, 2)] : List (Int × Int)).countP
        (fun p => p.1 == p.2) : ℚ) / (2 : ℚ)) := by
  have := accuracy_batch [(0, 0), (1, 2)] 2 (by decide) (by decide)
  simpa using this

/-- When every batch has the same positive size, averaging the per-batch
accuracies coincides with the per-sample accuracy of the whole set. -/
theorem testTop1_equal_sizes (bs : List (List (Int × Int))) (k : Nat)
    (hk : 0 < k) (hne : bs ≠ []) (hsz : ∀ b ∈ bs, b.length = k) :
    testTop1 bs = perSampleAcc bs := by
  have hm : 0 < bs.length := List.length_pos.mpr hne
  have hmapM : bs.mapM (fun b => accuracy (b.map Prod.fst) (b.map Prod.snd))
      = some (bs.map (fun b => ((b.countP (fun p => p.1 == p.2) : ℚ)) / (k : ℚ))) :=
    mapM_eq_some_map _ _ bs (fun b hb => accuracy_batch b k hk (hsz b hb))
  have hmapshape : bs.map (fun b => ((b.countP (fun p => p.1 == p.2) : ℚ)) / (k : ℚ))
      = (bs.map (fun b => (b.countP (fun p => p.1 == p.2) : ℚ))).map
          (fun x => x / (k : ℚ)) := by
    simp [List.map_map, Function.comp]
  have hlhs : testTop1 bs
      = some (((bs.map (fun b => (b.countP (fun p => p.1 == p.2) : ℚ))).sum / (k : ℚ))
          / (bs.length : ℚ)) := by
    unfold testTop1
    rw [hmapM, Option.some_bind, hmapshape]
    unfold npMean
    rw [sum_map_div]
    have hlen2 : ((bs.map (fun b => (b.countP (fun p => p.1 == p.2) : ℚ))).map
        (fun x => x / (k : ℚ))).length = bs.length := by simp
    rw [hlen2, if_neg hm.ne']
  have hlens : bs.map List.length = List.replicate bs.length k := by
    have hmem : ∀ x ∈ bs.map List.length, x = k := by
      intro x hx
      obtain ⟨b, hb, rfl⟩ := List.mem_map.mp hx
      exact hsz b hb
    calc bs.map List.length
        = List.replicate (bs.map List.length).length k :=
          List.eq_replicate_of_mem hmem
      _ = List.replicate bs.length k := by simp
  have hflatlen : bs.flatten.length = bs.length * k := by
    rw [List.length_flatten, hlens, List.sum_replicate, smul_eq_mul]
  have hrhs : perSampleAcc bs
      = some ((bs.flatten.countP (fun p => p.1 == p.2) : ℚ)
          / ((bs.length * k : Nat) : ℚ)) := by
    unfold perSampleAcc
    exact accuracy_batch bs.flatten (bs.length * k) (Nat.mul_pos hm hk) hflatlen
  rw [hlhs, hrhs]
  congr 1
  rw [List.countP_flatten]
  rw [div_div]
  have hcast : (((bs.map (List.countP (fun p => p.1 == p.2))).sum : Nat) : ℚ)
      = (bs.map (fun b => (b.countP (fun p => p.1 == p.2) : ℚ))).sum := by
    rw [Nat.cast_list_sum, List.map_map]
    rfl
  rw [hcast]
  push_cast
  ring

/-- C9: `test` returns the unweighted arithmetic mean of the per-batch
accuracies (`np.mean(top1_acc)`); this equals the true per-sample
accuracy whenever all batches share one positive size, but not in
general: on a concrete pair of batches of sizes 1 and 2 the two
quantities differ; and the test loader over 10,000 samples at
`BATCH_SIZE = 128` produces 78 full batches plus a final 16-sample batch,
which the mean weights like any full batch. -/
theorem c9_test_batch_mean :
    (∀ (bs : List (List (Int × Int))) (accs : List ℚ),
        bs.mapM (fun b => accuracy (b.map Prod.fst) (b.map Prod.snd)) = some accs →
        testTop1 bs = npMean accs) ∧
    (∀ (bs : List (List (Int × Int))) (k : Nat), 0 < k → bs ≠ [] →
        (∀ b ∈ bs, b.length = k) → testTop1 bs = perSampleAcc bs) ∧
    testTop1 [[((0 : Int), (0 : Int))], [(0, 1), (0, 1)]] = some (1 / 2) ∧
    perSampleAcc [[((0 : Int), (0 : Int))], [(0, 1), (0, 1)]] = some (1 / 3) ∧
    loaderBatchSizes 10000 BATCH_SIZE = List.replicate 78 128 ++ [16] := by
  refine ⟨?_, testTop1_equal_sizes, ?_, ?_, ?_⟩
  · intro bs accs h
    unfold testTop1
    rw [h, Option.some_bind]
  · have hmm : ([[((0 : Int), (0 : Int))], [(0, 1), (0, 1)]] :
        List (List (Int × Int))).mapM
        (fun b => accuracy (b.map Prod.fst) (b.map Prod.snd)) = some [1, 0] := by
      rw [List.mapM_cons, List.mapM_cons, List.mapM_nil]
      norm_num [accuracy, npMean]
    unfold testTop1
    rw [hmm, Option.some_bind]
    norm_num [npMean]
  · simp [perSampleAcc, accuracy, npMean]
  · decide

/-- Witness for C9 at a concrete input: two singleton batches, one
correct sample each; the per-batch mean and the per-sample accuracy
agree because the batch sizes are equal. -/
theorem c9_test_batch_mean_witness :
    testTop1 [[((0 : Int), (0 : Int))], [((1 : Int), (1 : Int))]] =
      perSampleAcc [[((0 : Int), (0 : Int))], [((1 : Int), (1 : Int))]] :=
  c9_test_batch_mean.2.1 _ 1 (by decide) (by decide) (by decide)

/- ### The report lines train and test print (cells 31 and 33) -/

/-- One line printed inside `train`: the epoch number, the running mean
loss `np.mean(losses)`, the running mean top-1 accuracy
`np.mean(top1_acc)`, and the privacy budget `(epsilon, DELTA)` from
`optimizer.privacy_engine.get_privacy_spent(DELTA)`. -/
structure TrainReport where
  epoch : Nat
  meanLoss : ℚ
  meanAcc : ℚ
  eps : ℚ
  delta : ℚ
  deriving DecidableEq, Repr

/-- The lines `train` prints over one epoch, each tagged with the batch
index it was printed at.  The loop `for i, (images, target) in
enumerate(train_loader)` appends the batch's loss and accuracy to
`losses` and `top1_acc` before the check `if i % 200 == 0`, so at index
`i` those lists hold the first `i + 1` per-batch values, whose means the
line reports.  The per-batch loss and accuracy values (`data`) and the
accountant's epsilon (`epsAt`) come from the model's forward pass and
the privacy engine and are inputs of the embedding. -/
def trainPrinted (epoch : Nat) (data : List (ℚ × ℚ)) (epsAt : Nat → ℚ) :
    List (Nat × TrainReport) :=
  (List.range data.length).filterMap (fun i =>
    if i % 200 == 0 then
      some (i, { epoch := epoch,
                 meanLoss := listMean ((data.take (i + 1)).map Prod.fst),
                 meanAcc := listMean ((data.take (i + 1)).map Prod.snd),
                 eps := epsAt i, delta := DELTA })
    else none)

/-- The line `test` prints after its loop over the test loader: the mean
test loss `np.mean(losses)` and the mean per-batch accuracy
`np.mean(top1_acc) = top1_avg`. -/
structure TestReport where
  meanLoss : ℚ
  acc : ℚ
  deriving DecidableEq, Repr

/-- The lines `test` prints: exactly one, after the loop, with the mean
of the collected per-batch losses and accuracies. -/
def testPrinted (losses accs : List ℚ) : List TestReport :=
  [ { meanLoss := listMean losses, acc := listMean accs } ]

/-- C5: `train` prints a report line exactly at the batches whose
0-based index satisfies `i % 200 == 0`; every non-empty epoch therefore
prints at least one line (at `i = 0`), and each line carries the epoch
number, the running mean loss, the running mean accuracy and the privacy
budget `(epsilon, DELTA)`; after training, `test` prints exactly one
final line with the mean test loss and the test accuracy. -/
theorem c5_report_lines (epoch : Nat) (data : List (ℚ × ℚ)) (epsAt : Nat → ℚ)
    (hne : data ≠ []) :
    (∀ i : Nat, (∃ r, (i, r) ∈ trainPrinted epoch data epsAt) ↔
      (i < data.length ∧ i % 200 = 0)) ∧
    (∃ r, (0, r) ∈ trainPrinted epoch data epsAt) ∧
    (∀ i r, (i, r) ∈ trainPrinted epoch data epsAt →
      r.epoch = epoch ∧
      r.meanLoss = listMean ((data.take (i + 1)).map Prod.fst) ∧
      r.meanAcc = listMean ((data.take (i + 1)).map Prod.snd) ∧
      r.eps = epsAt i ∧ r.delta = DELTA) ∧
    (∀ losses accs : List ℚ, (testPrinted losses accs).length = 1 ∧
      (testPrinted losses accs).head? =
        some { meanLoss := listMean losses, acc := listMean accs }) := by
  have hmem : ∀ i r, (i, r) ∈ trainPrinted epoch data epsAt ↔
      (i < data.length ∧ i % 200 = 0 ∧
        r = { epoch := epoch,
              meanLoss := listMean ((data.take (i + 1)).map Prod.fst),
              meanAcc := listMean ((data.take (i + 1)).map Prod.snd),
              eps := epsAt i, delta := DELTA }) := by
    intro i r
    unfold trainPrinted
    rw [List.mem_filterMap]
    constructor
    · rintro ⟨j, hj, hfj⟩
      by_cases hj200 : j % 200 == 0
      · rw [if_pos hj200, Option.some_inj] at hfj
        obtain ⟨rfl, rfl⟩ := Prod.mk.injEq .. ▸ And.intro (congrArg Prod.fst hfj)
          (congrArg Prod.snd hfj)
        exact ⟨List.mem_range.mp hj, by simpa using hj200, rfl⟩
      · rw [if_neg hj200] at hfj
        cases hfj
    · rintro ⟨hi, hi200, rfl⟩
      exact ⟨i, List.mem_range.mpr hi, by rw [if_pos (by simpa using hi200)]⟩
  refine ⟨?_, ?_, ?_, ?_⟩
  · intro i
    constructor
    · rintro ⟨r, hr⟩
      have := (hmem i r).mp hr
      exact ⟨this.1, this.2.1⟩
    · rintro ⟨hi, hi200⟩
      exact ⟨_, (hmem i _).mpr ⟨hi, hi200, rfl⟩⟩
  · refine ⟨_, (hmem 0 _).mpr ⟨List.length_pos.mpr hne, by decide, rfl⟩⟩
  · intro i r hr
    obtain ⟨-, -, rfl⟩ := (hmem i r).mp hr
    exact ⟨rfl, rfl, rfl, rfl, rfl⟩
  · intro losses accs
    exact ⟨rfl, rfl⟩

/-- Witness for C5 at a concrete input: an epoch of two batches with
loss 2 and 4, accuracy 1 and 0; exactly the line at batch index 0 is
printed, and it reports the means of the first batch alone. -/
theorem c5_report_lines_witness :
    (∃ r, (0, r) ∈ trainPrinted 1 [(2, 1), (4, 0)] (fun _ => 3)) ∧
    (∀ i : Nat, (∃ r, (i, r) ∈ trainPrinted 1 [(2, 1), (4, 0)] (fun _ => 3)) ↔
      (i < ([( (2 : ℚ), (1 : ℚ)), (4, 0)] : List (ℚ × ℚ)).length ∧ i % 200 = 0)) :=
  ⟨(c5_report_lines 1 [(2, 1), (4, 0)] (fun _ => 3) (by decide)).2.1,
   (c5_report_lines 1 [(2, 1), (4, 0)] (fun _ => 3) (by decide)).1⟩

/- ### The privacy engine construction (cell 28) -/

/-- The keyword arguments of the `PrivacyEngine(...)` construction. -/
structure PrivacyEngineArgs where
  batch_size : Nat
  sample_size : Nat
  alphas : List ℚ
  noise_multiplier : ℚ
  max_grad_norm : ℚ
  deriving DecidableEq, Repr

/-- `len(train_dataset)`: the CIFAR10 training split holds 50,000
images, as the notebook's own text notes when it picks `DELTA` below the
inverse of the training-set size. -/
def trainDatasetSize : Nat := 50000

/-- The construction `PrivacyEngine(model, batch_size=VIRTUAL_BATCH_SIZE,
sample_size=len(train_dataset), alphas=[1 + x / 10.0 for x in
range(1, 100)] + list(range(12, 64)), noise_multiplier=NOISE_MULTIPLIER,
max_grad_norm=MAX_GRAD_NORM)`. -/
def privacyEngineArgs : PrivacyEngineArgs :=
  { batch_size := VIRTUAL_BATCH_SIZE,
    sample_size := trainDatasetSize,
    alphas := ((List.range 99).map (fun x => 1 + ((x + 1 : Nat) : ℚ) / 10))
      ++ ((List.range 52).map (fun x => ((x + 12 : Nat) : ℚ))),
    noise_multiplier := NOISE_MULTIPLIER,
    max_grad_norm := MAX_GRAD_NORM }

/-- C10: the privacy engine is constructed with `batch_size` equal to
the logical `VIRTUAL_BATCH_SIZE` (512), which differs from the physical
`BATCH_SIZE` (128) of the data loader, and with `sample_size` equal to
the full training-set size of 50,000 samples. -/
theorem c10_privacy_engine_args :
    privacyEngineArgs.batch_size = VIRTUAL_BATCH_SIZE ∧
    privacyEngineArgs.batch_size = 512 ∧
    privacyEngineArgs.batch_size ≠ BATCH_SIZE ∧
    privacyEngineArgs.sample_size = trainDatasetSize ∧
    privacyEngineArgs.sample_size = 50000 := by
  refine ⟨rfl, rfl, by decide, rfl, rfl⟩
